import Mathlib

/-!
Shallow embedding of the dual-store weather API (src/api/weather_api.py,
src/api/models.py) for verification of the spec's claims about the
document-store CRUD layer, the sequence allocator, the referential
validator and the relational endpoints.

Documents of the schemaless store are modelled as association lists from
string keys to BSON-like values; each endpoint function is a pure function
from the store state (plus its arguments, and the server clock where the
source calls datetime.now) to the new store state and an HTTP-level result.
-/

set_option autoImplicit false

namespace WeatherApi

/-- A point in time: a calendar day (as an ordinal) and seconds within the
day.  `datetime.combine(d, datetime.min.time())` yields time-of-day 0. -/
structure Timestamp where
  day : Nat
  sec : Nat
deriving DecidableEq

/-- BSON-like values stored in documents.  `vDateOnly` is a Python
`datetime.date` (only ever present before date promotion); `vDate` is a
full datetime; `vOid` is the document store's internal object identifier
assigned by insert (the Python ObjectId). -/
inductive BVal where
  | vInt (i : Int)
  | vStr (s : String)
  | vBool (b : Bool)
  | vFloat (q : Rat)
  | vDate (t : Timestamp)
  | vDateOnly (day : Nat)
  | vNull
  | vOid (n : Nat)
deriving DecidableEq

open BVal

/-- A document: an association list of field names to values, mirroring a
Python dict ordered by insertion. -/
abbrev Document := List (String × BVal)

/-- Lookup of a field in a document (Python `doc[k]` / `doc.get(k)`). -/
def lookupKey : Document → String → Option BVal
  | [], _ => none
  | (k, v) :: rest, key => if k = key then some v else lookupKey rest key

/-- Python dict assignment `doc[k] = v`: replaces the first binding of `k`
if present, otherwise appends the new binding at the end. -/
def setKey : Document → String → BVal → Document
  | [], key, v => [(key, v)]
  | (k, w) :: rest, key, v =>
      if k = key then (k, v) :: rest else (k, w) :: setKey rest key v

/-- The dict comprehension used on every read path of the source,
dropping the store-internal object identifier before returning data to a
caller. -/
def stripId (doc : Document) : Document :=
  doc.filter (fun kv => kv.1 ≠ "_id")

/-- `collection.find_one(filter)` for a single-key equality filter:
the first document whose field `key` equals `v`. -/
def findOne : List Document → String → BVal → Option Document
  | [], _, _ => none
  | d :: ds, key, v =>
      if lookupKey d key = some v then some d else findOne ds key v

/-- `collection.delete_one(filter)`: removes the first matching document,
returning the new collection and the deleted count. -/
def deleteOne : List Document → String → BVal → List Document × Nat
  | [], _, _ => ([], 0)
  | d :: ds, key, v =>
      if lookupKey d key = some v then (ds, 1)
      else
        let r := deleteOne ds key v
        (d :: r.1, r.2)

/-- Applying an update patch document field by field (the semantics of a
single-level `$set`). -/
def applyPatch (doc : Document) : Document → Document
  | [] => doc
  | kv :: rest => applyPatch (setKey doc kv.1 kv.2) rest

/-- `collection.update_one(filter, set-patch)`: patches the first matching
document, returning the new collection and the matched count. -/
def updateOne : List Document → String → BVal → Document → List Document × Nat
  | [], _, _, _ => ([], 0)
  | d :: ds, key, v, patch =>
      if lookupKey d key = some v then (applyPatch d patch :: ds, 1)
      else
        let r := updateOne ds key v patch
        (d :: r.1, r.2)

/-- Lookup in the counters collection (keyed on the document `_id`, which
holds the collection name). -/
def counterGet : List (String × Int) → String → Option Int
  | [], _ => none
  | (k, w) :: rest, name => if k = name then some w else counterGet rest name

/-- Upsert write into the counters collection. -/
def counterSet : List (String × Int) → String → Int → List (String × Int)
  | [], name, v => [(name, v)]
  | (k, w) :: rest, name, v =>
      if k = name then (k, v) :: rest else (k, w) :: counterSet rest name v

/-- The whole document store: the three collections, the counters
collection used by the sequence allocator, and the store's supply of
fresh internal object identifiers. -/
structure MongoDB where
  locations : List Document
  weather_observations : List Document
  rain_predictions : List Document
  counters : List (String × Int)
  nextOid : Nat
deriving DecidableEq

/-- The current value of a named counter, reading an absent counter as 0
(the upsert in the allocator creates it at zero-then-incremented). -/
def counterValD (db : MongoDB) (name : String) : Int :=
  (counterGet db.counters name).getD 0

/-- An HTTPException: status code and detail message. -/
structure HTTPError where
  status : Nat
  detail : String
deriving DecidableEq

/-- The envelope every document-store endpoint returns:
a message string and a data payload (a document, or nothing). -/
structure ApiResponse where
  message : String
  data : Option Document
deriving DecidableEq

/-- Status of an endpoint result: the HTTP error status when it failed,
`none` when it succeeded. -/
def resultStatus {α : Type} : Except HTTPError α → Option Nat
  | .error e => some e.status
  | .ok _ => none

/-- get_next_sequence_value (weather_api.py:108): one atomic
find_one_and_update with an increment and upsert on the counters
collection, returning the incremented value. -/
def get_next_sequence_value (db : MongoDB) (name : String) : MongoDB × Int :=
  let v := (counterGet db.counters name).getD 0 + 1
  ({ db with counters := counterSet db.counters name v }, v)

/-- verify_location_exists (weather_api.py:23): find_one on the locations
collection; raises a 404 HTTPException when absent, returns True when
present. -/
def verify_location_exists (db : MongoDB) (location_id : Int) :
    Except HTTPError Bool :=
  match findOne db.locations "location_id" (vInt location_id) with
  | none =>
      .error ⟨404, "Location with ID " ++ toString location_id ++
        " not found. Please create the location first."⟩
  | some _ => .ok true

/-- The pydantic ObservationBase model (models.py:13): a location
reference, a date-only calendar date, and 16 optional meteorological
fields.  Doubles are modelled as rationals; an absent optional field is
`none` and serializes to a null value. -/
structure ObservationBase where
  location_id : Int
  date : Nat
  min_temp : Option Rat := none
  max_temp : Option Rat := none
  rainfall : Option Rat := none
  humidity_9am : Option Rat := none
  humidity_3pm : Option Rat := none
  pressure_9am : Option Rat := none
  pressure_3pm : Option Rat := none
  wind_speed_9am : Option Rat := none
  wind_speed_3pm : Option Rat := none
  wind_dir_9am : Option String := none
  wind_dir_3pm : Option String := none
  cloud_9am : Option Rat := none
  cloud_3pm : Option Rat := none
  temp_9am : Option Rat := none
  temp_3pm : Option Rat := none
  rain_today : Option Bool := none
  rain_tomorrow : Option Bool := none
deriving DecidableEq

/-- Serialization of an optional double (None becomes null). -/
def optFloat : Option Rat → BVal
  | none => vNull
  | some q => vFloat q

/-- Serialization of an optional string. -/
def optStr : Option String → BVal
  | none => vNull
  | some s => vStr s

/-- Serialization of an optional boolean. -/
def optBool : Option Bool → BVal
  | none => vNull
  | some b => vBool b

/-- `obs.dict()`: the pydantic model dumped to a dict in declared field
order, with the date still a date-only value. -/
def ObservationBase.dict (obs : ObservationBase) : Document :=
  [("location_id", vInt obs.location_id),
   ("date", vDateOnly obs.date),
   ("min_temp", optFloat obs.min_temp),
   ("max_temp", optFloat obs.max_temp),
   ("rainfall", optFloat obs.rainfall),
   ("humidity_9am", optFloat obs.humidity_9am),
   ("humidity_3pm", optFloat obs.humidity_3pm),
   ("pressure_9am", optFloat obs.pressure_9am),
   ("pressure_3pm", optFloat obs.pressure_3pm),
   ("wind_speed_9am", optFloat obs.wind_speed_9am),
   ("wind_speed_3pm", optFloat obs.wind_speed_3pm),
   ("wind_dir_9am", optStr obs.wind_dir_9am),
   ("wind_dir_3pm", optStr obs.wind_dir_3pm),
   ("cloud_9am", optFloat obs.cloud_9am),
   ("cloud_3pm", optFloat obs.cloud_3pm),
   ("temp_9am", optFloat obs.temp_9am),
   ("temp_3pm", optFloat obs.temp_3pm),
   ("rain_today", optBool obs.rain_today),
   ("rain_tomorrow", optBool obs.rain_tomorrow)]

/-- The date promotion step of the document-store mappers
(weather_api.py:468, 525): a Python datetime is a subclass of date, so
the isinstance check matches both; datetime.combine with the minimal
time maps either to the timestamp at midnight of its calendar day.
A document without a date field is left untouched. -/
def promoteDate (doc : Document) : Document :=
  match lookupKey doc "date" with
  | some (vDateOnly d) => setKey doc "date" (vDate ⟨d, 0⟩)
  | some (vDate t) => setKey doc "date" (vDate ⟨t.day, 0⟩)
  | _ => doc

/-- The pydantic MongoPredictionBase model (models.py:77): the client may
supply predicted_at (it defaults to the client-side current time). -/
structure MongoPredictionBase where
  observation_id : Int
  will_it_rain : Bool
  predicted_at : Timestamp
deriving DecidableEq

/-- The pydantic PredictionBase model (models.py:37), used by both the
relational prediction endpoints and the document-store prediction
update. -/
structure PredictionBase where
  observation_id : Int
  will_it_rain : Bool
deriving DecidableEq

/-- `pred.dict()` for a MongoPredictionBase. -/
def MongoPredictionBase.dict (pred : MongoPredictionBase) : Document :=
  [("observation_id", vInt pred.observation_id),
   ("will_it_rain", vBool pred.will_it_rain),
   ("predicted_at", vDate pred.predicted_at)]

/-- `pred.dict()` for a PredictionBase. -/
def PredictionBase.dict (pred : PredictionBase) : Document :=
  [("observation_id", vInt pred.observation_id),
   ("will_it_rain", vBool pred.will_it_rain)]

/-- Rendering of a value into a message string (Python str interpolation
inside the f-strings of the endpoints). -/
def BVal.text : BVal → String
  | vInt i => toString i
  | vStr s => s
  | vBool b => toString b
  | vFloat q => toString q
  | vDate t => toString t.day ++ "T" ++ toString t.sec
  | vDateOnly d => toString d
  | vNull => "None"
  | vOid n => toString n

/-- create_mongo_observation (weather_api.py:457): verify the referenced
location, then allocate the observation id, promote the date, insert, and
read the saved document back by its object id, stripping the internal
identifier from the returned data. -/
def create_mongo_observation (db : MongoDB) (obs : ObservationBase) :
    MongoDB × Except HTTPError ApiResponse :=
  match verify_location_exists db obs.location_id with
  | .error e => (db, .error e)
  | .ok _ =>
    let p := get_next_sequence_value db "observations"
    let db1 := p.1
    let observation_id := p.2
    let data := promoteDate obs.dict
    let data1 := setKey data "observation_id" (vInt observation_id)
    let oid := db1.nextOid
    let stored := data1 ++ [("_id", vOid oid)]
    let db2 := { db1 with
      weather_observations := db1.weather_observations ++ [stored],
      nextOid := oid + 1 }
    match findOne db2.weather_observations "_id" (vOid oid) with
    | none =>
        (db2, .error ⟨500, "Failed to create observation: saved document not found"⟩)
    | some saved =>
        (db2, .ok ⟨"Weather observation created successfully with ID " ++
          toString observation_id, some (stripId saved)⟩)

/-- read_mongo_observation (weather_api.py:499): find by observation id,
404 when absent, otherwise return the document without its internal
identifier.  Reads do not change the store. -/
def read_mongo_observation (db : MongoDB) (observation_id : Int) :
    Except HTTPError ApiResponse :=
  match findOne db.weather_observations "observation_id" (vInt observation_id) with
  | none =>
      .error ⟨404, "Observation with ID " ++ toString observation_id ++ " not found"⟩
  | some doc =>
      match lookupKey doc "location_id", lookupKey doc "date" with
      | some lv, some dv =>
          .ok ⟨"Found observation for location " ++ lv.text ++ " on " ++ dv.text,
            some (stripId doc)⟩
      | _, _ => .error ⟨500, "Failed to retrieve observation: missing field"⟩

/-- update_mongo_observation (weather_api.py:516): the location reference
is re-validated whenever the submitted location_id is truthy (nonzero);
a zero location_id skips the check.  The date is promoted and the patch
applied to the first matching document. -/
def update_mongo_observation (db : MongoDB) (observation_id : Int)
    (obs : ObservationBase) : MongoDB × Except HTTPError ApiResponse :=
  let check : Except HTTPError Bool :=
    if obs.location_id ≠ 0 then verify_location_exists db obs.location_id
    else .ok true
  match check with
  | .error e => (db, .error e)
  | .ok _ =>
    let data := promoteDate obs.dict
    let r := updateOne db.weather_observations "observation_id"
      (vInt observation_id) data
    if r.2 = 0 then
      (db, .error ⟨404, "Observation with ID " ++ toString observation_id ++
        " not found"⟩)
    else
      let db1 := { db with weather_observations := r.1 }
      match findOne db1.weather_observations "observation_id" (vInt observation_id) with
      | none =>
          (db1, .error ⟨500, "Failed to update observation: document not found"⟩)
      | some doc =>
          (db1, .ok ⟨"Weather observation " ++ toString observation_id ++
            " updated successfully", some (stripId doc)⟩)

/-- delete_mongo_location (weather_api.py:434): find the location (404
when absent, 500 when its name field is missing, mirroring the KeyError
path), then delete that one document.  No other collection is touched. -/
def delete_mongo_location (db : MongoDB) (location_id : Int) :
    MongoDB × Except HTTPError ApiResponse :=
  match findOne db.locations "location_id" (vInt location_id) with
  | none =>
      (db, .error ⟨404, "Location with ID " ++ toString location_id ++ " not found"⟩)
  | some doc =>
    match lookupKey doc "name" with
    | none => (db, .error ⟨500, "Failed to delete location: missing name"⟩)
    | some nameVal =>
      let r := deleteOne db.locations "location_id" (vInt location_id)
      let db1 := { db with locations := r.1 }
      if r.2 = 0 then
        (db1, .error ⟨404, "Location with ID " ++ toString location_id ++
          " not found"⟩)
      else
        (db1, .ok ⟨"Location " ++ nameVal.text ++ " (ID: " ++
          toString location_id ++ ") deleted successfully", none⟩)

/-- create_mongo_prediction (weather_api.py:568): the prediction id is
allocated first; only then is the referenced observation resolved (404
when absent) and its stored location_id transitively validated (404 when
that location is absent).  The server clock value overwrites any
client-supplied predicted_at.  A missing location_id field on the
observation raises and surfaces as a 500. -/
def create_mongo_prediction (db : MongoDB) (pred : MongoPredictionBase)
    (now : Timestamp) : MongoDB × Except HTTPError ApiResponse :=
  let p := get_next_sequence_value db "predictions"
  let db1 := p.1
  let prediction_id := p.2
  match findOne db1.weather_observations "observation_id" (vInt pred.observation_id) with
  | none =>
      (db1, .error ⟨404, "Observation with ID " ++ toString pred.observation_id ++
        " not found"⟩)
  | some observation =>
    match lookupKey observation "location_id" with
    | none => (db1, .error ⟨500, "Failed to create prediction: missing location id"⟩)
    | some lv =>
      match findOne db1.locations "location_id" lv with
      | none =>
          (db1, .error ⟨404, "Location with ID " ++ lv.text ++
            " not found. Please create the location first."⟩)
      | some _ =>
        let data := pred.dict
        let data1 := setKey data "location_id" lv
        let data2 := setKey data1 "prediction_id" (vInt prediction_id)
        let data3 := setKey data2 "predicted_at" (vDate now)
        let oid := db1.nextOid
        let stored := data3 ++ [("_id", vOid oid)]
        let db2 := { db1 with
          rain_predictions := db1.rain_predictions ++ [stored],
          nextOid := oid + 1 }
        match findOne db2.rain_predictions "_id" (vOid oid) with
        | none =>
            (db2, .error ⟨500, "Failed to create prediction: saved document not found"⟩)
        | some saved =>
            (db2, .ok ⟨"Created prediction (ID: " ++ toString prediction_id ++
              ") for location " ++ lv.text, some (stripId saved)⟩)

/-- update_mongo_prediction (weather_api.py:635): when the submitted
observation_id equals the stored one, no reference is re-validated and
the patch (with a refreshed predicted_at) is applied.  When it differs,
the new observation and its location are validated; if both exist the
source then assigns into the local name data before data is bound
(weather_api.py:652), so the request fails with an UnboundLocalError
surfaced as a 500 by the generic except branch, and nothing is written. -/
def update_mongo_prediction (db : MongoDB) (prediction_id : Int)
    (pred : PredictionBase) (now : Timestamp) :
    MongoDB × Except HTTPError ApiResponse :=
  match findOne db.rain_predictions "prediction_id" (vInt prediction_id) with
  | none =>
      (db, .error ⟨404, "Prediction with ID " ++ toString prediction_id ++
        " not found"⟩)
  | some existing =>
    match lookupKey existing "observation_id" with
    | none => (db, .error ⟨500, "Failed to update prediction: missing observation id"⟩)
    | some ov =>
      if ov = vInt pred.observation_id then
        let data := setKey pred.dict "predicted_at" (vDate now)
        let r := updateOne db.rain_predictions "prediction_id"
          (vInt prediction_id) data
        if r.2 = 0 then
          (db, .error ⟨404, "Prediction with ID " ++ toString prediction_id ++
            " not found"⟩)
        else
          let db1 := { db with rain_predictions := r.1 }
          match findOne db1.rain_predictions "prediction_id" (vInt prediction_id) with
          | none =>
              (db1, .error ⟨500, "Failed to update prediction: document not found"⟩)
          | some doc =>
              (db1, .ok ⟨"Updated prediction " ++ toString prediction_id,
                some (stripId doc)⟩)
      else
        match findOne db.weather_observations "observation_id" (vInt pred.observation_id) with
        | none =>
            (db, .error ⟨404, "Observation with ID " ++
              toString pred.observation_id ++ " not found"⟩)
        | some observation =>
          match lookupKey observation "location_id" with
          | none =>
              (db, .error ⟨500, "Failed to update prediction: missing location id"⟩)
          | some lv =>
            match findOne db.locations "location_id" lv with
            | none =>
                (db, .error ⟨404, "Location with ID " ++ lv.text ++
                  " not found. Please create the location first."⟩)
            | some _ =>
                (db, .error ⟨500,
                  "Failed to update prediction: local variable data referenced before assignment"⟩)

/-- The pydantic LocationBase model (models.py:6). -/
structure LocationBase where
  name : String
  state : Option String := none
deriving DecidableEq

/-- A row of the relational locations table. -/
structure PgLocation where
  location_id : Int
  name : String
  state : Option String
deriving DecidableEq

/-- A row of the relational weather_observations table: the store-native
serial key plus the ObservationBase fields. -/
structure PgObservation where
  observation_id : Int
  base : ObservationBase
deriving DecidableEq

/-- A row of the relational rain_predictions table; predicted_at is
populated by the store at insert time. -/
structure PgPrediction where
  prediction_id : Int
  observation_id : Int
  will_it_rain : Bool
  predicted_at : Timestamp
deriving DecidableEq

/-- The relational store plus the process's view of its connections:
openConns counts connections acquired by get_db_connection and not yet
closed. -/
structure PgState where
  locations : List PgLocation
  weather_observations : List PgObservation
  rain_predictions : List PgPrediction
  next_location_id : Int
  next_observation_id : Int
  openConns : Nat
deriving DecidableEq

/-- A driver-level storage failure raised by a cursor operation. -/
inductive PgError where
  | storage
deriving DecidableEq

/-- create_location (weather_api.py:144): acquire a connection, insert,
commit, close.  There is no try/finally: when the execute call raises
(modelled by executeRaises), the exception propagates to the framework
handler with the connection still open. -/
def create_location (st : PgState) (loc : LocationBase)
    (executeRaises : Bool) : PgState × Except PgError PgLocation :=
  let st1 := { st with openConns := st.openConns + 1 }
  if executeRaises then (st1, .error .storage)
  else
    let lid := st1.next_location_id
    let row : PgLocation := ⟨lid, loc.name, loc.state⟩
    let st2 := { st1 with
      locations := st1.locations ++ [row],
      next_location_id := lid + 1 }
    let st3 := { st2 with openConns := st2.openConns - 1 }
    (st3, .ok row)

/-- create_observation (weather_api.py:212): same shape as
create_location — acquire, insert returning the serial key, commit,
close; no try/finally, so a raising execute leaves the connection
open. -/
def create_observation (st : PgState) (obs : ObservationBase)
    (executeRaises : Bool) : PgState × Except PgError PgObservation :=
  let st1 := { st with openConns := st.openConns + 1 }
  if executeRaises then (st1, .error .storage)
  else
    let oid := st1.next_observation_id
    let row : PgObservation := ⟨oid, obs⟩
    let st2 := { st1 with
      weather_observations := st1.weather_observations ++ [row],
      next_observation_id := oid + 1 }
    let st3 := { st2 with openConns := st2.openConns - 1 }
    (st3, .ok row)

/-- In-place SQL UPDATE of the first rain_predictions row with the given
key, setting only observation_id and will_it_rain, returning the updated
row when one matched. -/
def pgUpdatePrediction : List PgPrediction → Int → PredictionBase →
    List PgPrediction × Option PgPrediction
  | [], _, _ => ([], none)
  | row :: rest, pid, pred =>
      if row.prediction_id = pid then
        let row1 : PgPrediction :=
          { row with observation_id := pred.observation_id,
                     will_it_rain := pred.will_it_rain }
        (row1 :: rest, some row1)
      else
        let r := pgUpdatePrediction rest pid pred
        (row :: r.1, r.2)

/-- update_prediction (weather_api.py:342): the UPDATE statement sets
only observation_id and will_it_rain — predicted_at is not in its SET
list, so the stored timestamp is returned unchanged.  The wall-clock
time of the call (the _now argument) is never consulted. -/
def update_prediction (st : PgState) (prediction_id : Int)
    (pred : PredictionBase) (_now : Timestamp) :
    PgState × Except HTTPError PgPrediction :=
  let st1 := { st with openConns := st.openConns + 1 }
  let r := pgUpdatePrediction st1.rain_predictions prediction_id pred
  let st2 := { st1 with rain_predictions := r.1 }
  let st3 := { st2 with openConns := st2.openConns - 1 }
  (st3,
    match r.2 with
    | none => .error ⟨404, "Prediction not found"⟩
    | some row => .ok row)

/-- n successive sequence-allocator calls for one entity type, returning
the final store and the list of allocated identifiers in call order. -/
def allocCalls (db : MongoDB) (name : String) : Nat → MongoDB × List Int
  | 0 => (db, [])
  | Nat.succ n =>
      let p := get_next_sequence_value db name
      let q := allocCalls p.1 name n
      (q.1, p.2 :: q.2)

/-- The data payload of an endpoint result, when it succeeded with one. -/
def responseData : Except HTTPError ApiResponse → Option Document
  | .ok resp => resp.data
  | .error _ => none

/-- One field of the data payload of a successful endpoint result. -/
def responseField (r : Except HTTPError ApiResponse) (key : String) : Option BVal :=
  match responseData r with
  | some d => lookupKey d key
  | none => none

/-- A sample stored location document (id 1). -/
def locDoc1 : Document :=
  [("location_id", vInt 1), ("name", vStr "Sydney"), ("state", vStr "NSW"),
   ("_id", vOid 100)]

/-- A sample stored observation document (id 1, referencing location 1). -/
def obsDoc1 : Document :=
  [("location_id", vInt 1), ("date", vDate ⟨738521, 0⟩),
   ("observation_id", vInt 1), ("_id", vOid 101)]

/-- A second stored observation document (id 2, referencing location 1). -/
def obsDoc2 : Document :=
  [("location_id", vInt 1), ("date", vDate ⟨738522, 0⟩),
   ("observation_id", vInt 2), ("_id", vOid 102)]

/-- A sample stored prediction document (id 1, referencing observation 1,
predicted at day 5). -/
def predDoc1 : Document :=
  [("observation_id", vInt 1), ("will_it_rain", vBool true),
   ("predicted_at", vDate ⟨5, 0⟩), ("location_id", vInt 1),
   ("prediction_id", vInt 1), ("_id", vOid 103)]

/-- A populated sample document store. -/
def dbW : MongoDB :=
  { locations := [locDoc1],
    weather_observations := [obsDoc1, obsDoc2],
    rain_predictions := [predDoc1],
    counters := [("locations", 1), ("observations", 2), ("predictions", 1)],
    nextOid := 200 }

/-- A sample relational store with one row per table and no open
connection. -/
def pgSt1 : PgState :=
  { locations := [⟨1, "Sydney", some "NSW"⟩],
    weather_observations := [⟨1, { location_id := 1, date := 10 }⟩],
    rain_predictions := [⟨1, 1, true, ⟨5, 0⟩⟩],
    next_location_id := 2,
    next_observation_id := 2,
    openConns := 0 }

/-- A fully populated observation input referencing location 1. -/
def obsFull : ObservationBase :=
  { location_id := 1, date := 738523,
    min_temp := some 7, max_temp := some 21, rainfall := some 2,
    humidity_9am := some 80, humidity_3pm := some 55,
    pressure_9am := some 1015, pressure_3pm := some 1012,
    wind_speed_9am := some 9, wind_speed_3pm := some 13,
    wind_dir_9am := some "NW", wind_dir_3pm := some "SE",
    cloud_9am := some 6, cloud_3pm := some 4,
    temp_9am := some 12, temp_3pm := some 19,
    rain_today := some false, rain_tomorrow := some true }

/-! Helper lemmas about the store primitives. -/

theorem lookupKey_setKey_self (d : Document) (k : String) (v : BVal) :
    lookupKey (setKey d k v) k = some v := by
  induction d with
  | nil => simp [setKey, lookupKey]
  | cons kv rest ih =>
      by_cases h : kv.1 = k
      · simp [setKey, lookupKey, h]
      · simp [setKey, lookupKey, h, ih]

theorem lookupKey_setKey_ne (d : Document) {k key : String} (v : BVal)
    (h : k ≠ key) : lookupKey (setKey d k v) key = lookupKey d key := by
  induction d with
  | nil => simp [setKey, lookupKey, h]
  | cons kv rest ih =>
      by_cases hk : kv.1 = k
      · simp [setKey, lookupKey, hk, h]
      · simp [setKey, lookupKey, hk, ih]

theorem lookupKey_append_left {d1 : Document} (d2 : Document) {key : String}
    {v : BVal} (h : lookupKey d1 key = some v) :
    lookupKey (d1 ++ d2) key = some v := by
  induction d1 with
  | nil => simp [lookupKey] at h
  | cons kv rest ih =>
      by_cases hk : kv.1 = key
      · simp [lookupKey, hk] at h ⊢; exact h
      · simp [lookupKey, hk] at h ⊢; exact ih h

theorem lookupKey_append_right {d1 : Document} (d2 : Document) {key : String}
    (h : lookupKey d1 key = none) :
    lookupKey (d1 ++ d2) key = lookupKey d2 key := by
  induction d1 with
  | nil => simp
  | cons kv rest ih =>
      by_cases hk : kv.1 = key
      · simp [lookupKey, hk] at h
      · simp [lookupKey, hk] at h ⊢; exact ih h

theorem findOne_append_none {l1 : List Document} (l2 : List Document)
    {key : String} {v : BVal} (h : findOne l1 key v = none) :
    findOne (l1 ++ l2) key v = findOne l2 key v := by
  induction l1 with
  | nil => simp
  | cons d rest ih =>
      by_cases hd : lookupKey d key = some v
      · simp [findOne, hd] at h
      · simp [findOne, hd] at h ⊢; exact ih h

theorem findOne_matches {l : List Document} {key : String} {v : BVal}
    {d : Document} (h : findOne l key v = some d) :
    lookupKey d key = some v := by
  induction l with
  | nil => simp [findOne] at h
  | cons e rest ih =>
      by_cases he : lookupKey e key = some v
      · simp [findOne, he] at h; rw [← h]; exact he
      · simp [findOne, he] at h; exact ih h

theorem lookupKey_stripId (d : Document) {key : String} (h : key ≠ "_id") :
    lookupKey (stripId d) key = lookupKey d key := by
  induction d with
  | nil => rfl
  | cons kv rest ih =>
      by_cases hid : kv.1 = "_id"
      · have hk : kv.1 ≠ key := by
          intro e
          exact h (by rw [← e]; exact hid)
        simpa [stripId, List.filter_cons, hid, lookupKey, hk, h, Ne.symm h] using ih
      · by_cases hk : kv.1 = key
        · simp [stripId, List.filter_cons, hid, lookupKey, hk, h, Ne.symm h]
        · simpa [stripId, List.filter_cons, hid, lookupKey, hk, h, Ne.symm h] using ih

theorem lookupKey_stripId_id (d : Document) :
    lookupKey (stripId d) "_id" = none := by
  induction d with
  | nil => simp [stripId, lookupKey]
  | cons kv rest ih =>
      by_cases hid : kv.1 = "_id"
      · simp [stripId, lookupKey, hid] at ih ⊢; exact ih
      · simp [stripId, lookupKey, hid] at ih ⊢; exact ih

theorem counterGet_counterSet_self (l : List (String × Int)) (name : String)
    (v : Int) : counterGet (counterSet l name v) name = some v := by
  induction l with
  | nil => simp [counterSet, counterGet]
  | cons kv rest ih =>
      by_cases hk : kv.1 = name
      · simp [counterSet, counterGet, hk]
      · simp [counterSet, counterGet, hk, ih]

theorem counterValD_alloc (db : MongoDB) (name : String) :
    counterValD (get_next_sequence_value db name).1 name =
      counterValD db name + 1 := by
  simp [counterValD, get_next_sequence_value, counterGet_counterSet_self]

theorem deleteOne_fst_eraseP (l : List Document) (key : String) (v : BVal) :
    (deleteOne l key v).1 =
      l.eraseP (fun e => decide (lookupKey e key = some v)) := by
  induction l with
  | nil => simp [deleteOne]
  | cons d rest ih =>
      by_cases hd : lookupKey d key = some v
      · simp [deleteOne, List.eraseP, hd]
      · simp [deleteOne, List.eraseP, hd, ih]

theorem deleteOne_snd_of_found {l : List Document} {key : String} {v : BVal}
    {d : Document} (h : findOne l key v = some d) :
    (deleteOne l key v).2 = 1 := by
  induction l with
  | nil => simp [findOne] at h
  | cons e rest ih =>
      by_cases he : lookupKey e key = some v
      · simp [deleteOne, he]
      · simp [findOne, he] at h
        simp [deleteOne, he, ih h]

theorem findOne_updateOne {l : List Document} {key : String} {v : BVal}
    {patch : Document} {d : Document} (h : findOne l key v = some d)
    (hpres : lookupKey (applyPatch d patch) key = some v) :
    (updateOne l key v patch).2 = 1 ∧
    (findOne (updateOne l key v patch).1 key v = some (applyPatch d patch)) := by
  induction l with
  | nil => simp [findOne] at h
  | cons e rest ih =>
      by_cases he : lookupKey e key = some v
      · simp [findOne, he] at h
        subst h
        simp [updateOne, findOne, he, hpres]
      · simp [findOne, he] at h
        have := ih h
        simp [updateOne, findOne, he, this.1, this.2]

theorem pgUpdatePrediction_keeps_predicted_at (l : List PgPrediction)
    (pid : Int) (pred : PredictionBase) :
    ((pgUpdatePrediction l pid pred).1).map PgPrediction.predicted_at =
      l.map PgPrediction.predicted_at := by
  induction l with
  | nil => simp [pgUpdatePrediction]
  | cons row rest ih =>
      by_cases hp : row.prediction_id = pid
      · simp [pgUpdatePrediction, hp]
      · simp [pgUpdatePrediction, hp, ih]

theorem lookupKey_applyPatch_of_not_key {patch : Document} {key : String}
    (h : ∀ kv ∈ patch, kv.1 ≠ key) :
    ∀ d : Document, lookupKey (applyPatch d patch) key = lookupKey d key := by
  induction patch with
  | nil => intro d; rfl
  | cons kv rest ih =>
      intro d
      rw [applyPatch, ih (fun e he => h e (List.mem_cons_of_mem kv he))]
      exact lookupKey_setKey_ne d kv.2 (h kv (List.mem_cons_self kv rest))

theorem findOne_singleton_insert {l : List Document} {d1 : Document}
    {key : String} {v : BVal} (hl : findOne l key v = none)
    (hd : lookupKey d1 key = none) :
    findOne (l ++ [d1 ++ [(key, v)]]) key v = some (d1 ++ [(key, v)]) := by
  rw [findOne_append_none _ hl]
  have hk : lookupKey (d1 ++ [(key, v)]) key = some v := by
    rw [lookupKey_append_right _ hd]
    simp [lookupKey]
  simp [findOne, hk]

theorem gnsv_locations (db : MongoDB) (name : String) :
    (get_next_sequence_value db name).1.locations = db.locations := rfl

theorem gnsv_weather (db : MongoDB) (name : String) :
    (get_next_sequence_value db name).1.weather_observations =
      db.weather_observations := rfl

theorem gnsv_rain (db : MongoDB) (name : String) :
    (get_next_sequence_value db name).1.rain_predictions =
      db.rain_predictions := rfl

theorem gnsv_nextOid (db : MongoDB) (name : String) :
    (get_next_sequence_value db name).1.nextOid = db.nextOid := rfl

theorem gnsv_counters (db : MongoDB) (name : String) :
    (get_next_sequence_value db name).1.counters =
      counterSet db.counters name (counterValD db name + 1) := rfl

theorem gnsv_snd (db : MongoDB) (name : String) :
    (get_next_sequence_value db name).2 = counterValD db name + 1 := rfl

theorem verify_location_exists_ok {db : MongoDB} {lid : Int} {ldoc : Document}
    (h : findOne db.locations "location_id" (vInt lid) = some ldoc) :
    verify_location_exists db lid = .ok true := by
  unfold verify_location_exists
  rw [h]

theorem verify_location_exists_notfound {db : MongoDB} {lid : Int}
    (h : findOne db.locations "location_id" (vInt lid) = none) :
    resultStatus (verify_location_exists db lid) = some 404 := by
  unfold verify_location_exists
  rw [h]
  rfl

theorem read_mongo_observation_congr {db1 db2 : MongoDB}
    (h : db1.weather_observations = db2.weather_observations) (x : Int) :
    read_mongo_observation db1 x = read_mongo_observation db2 x := by
  unfold read_mongo_observation
  rw [h]

theorem allocCalls_values (name : String) :
    ∀ (n : Nat) (db : MongoDB),
      (allocCalls db name n).2 =
        (List.range n).map (fun (i : Nat) => counterValD db name + 1 + (i : Int)) := by
  intro n
  induction n with
  | zero => intro db; simp [allocCalls]
  | succ n ih =>
      intro db
      have hstep := counterValD_alloc db name
      have hsnd : (get_next_sequence_value db name).2 = counterValD db name + 1 := by
        simp [get_next_sequence_value, counterValD]
      rw [List.range_succ_eq_map]
      simp only [allocCalls, List.map_cons, List.map_map]
      rw [ih, hstep, hsnd]
      congr 1
      · push_cast; ring
      · apply List.map_congr_left
        intro i _
        simp only [Function.comp_apply]
        push_cast
        ring

/-! Claim theorems. -/

/-- C4: starting from an absent counter for an entity type, n successive
sequence-allocator calls return exactly the integers 1 through n in call
order — the absent counter is implicitly created, the first call returns
1, and the values are pairwise distinct and strictly increasing. -/
theorem allocator_returns_one_through_n (db : MongoDB) (name : String)
    (n : Nat) (habsent : counterGet db.counters name = none) :
    (allocCalls db name n).2 =
      (List.range n).map (fun (i : Nat) => ((i : Int) + 1)) ∧
    (allocCalls db name n).2.Pairwise (· < ·) := by
  have hval : counterValD db name = 0 := by simp [counterValD, habsent]
  have h := allocCalls_values name n db
  rw [hval] at h
  constructor
  · rw [h]
    apply List.map_congr_left
    intro i _
    ring
  · rw [h]
    refine List.Pairwise.map _ ?_ (List.pairwise_lt_range n)
    intro a b hab
    omega

/-- Witness for C4: three calls on an empty counter store yield 1, 2, 3. -/
theorem allocator_returns_one_through_n_witness :
    (allocCalls ⟨[], [], [], [], 0⟩ "observations" 3).2 =
      (List.range 3).map (fun (i : Nat) => ((i : Int) + 1)) ∧
    (allocCalls ⟨[], [], [], [], 0⟩ "observations" 3).2.Pairwise (· < ·) :=
  allocator_returns_one_through_n ⟨[], [], [], [], 0⟩ "observations" 3 rfl

/-- C3: creating a document-store observation whose location_id does not
resolve to a location fails with a 404 NotFound and leaves the store
completely unchanged — no observation id is allocated and no document is
written. -/
theorem create_observation_missing_location_rejected (db : MongoDB)
    (obs : ObservationBase)
    (h : findOne db.locations "location_id" (vInt obs.location_id) = none) :
    (create_mongo_observation db obs).1 = db ∧
    resultStatus (create_mongo_observation db obs).2 = some 404 := by
  unfold create_mongo_observation verify_location_exists
  rw [h]
  exact ⟨rfl, rfl⟩

/-- Witness for C3: on an empty store the create is rejected with 404 and
the state is untouched. -/
theorem create_observation_missing_location_rejected_witness :
    (create_mongo_observation ⟨[], [], [], [], 0⟩ { location_id := 1, date := 5 }).1 =
      ⟨[], [], [], [], 0⟩ ∧
    resultStatus
      (create_mongo_observation ⟨[], [], [], [], 0⟩ { location_id := 1, date := 5 }).2 =
      some 404 :=
  create_observation_missing_location_rejected ⟨[], [], [], [], 0⟩
    { location_id := 1, date := 5 } rfl

/-- C2 corrected: the relational create endpoints release their
connection on the successful exit path before returning, but when the
underlying store call raises, the exception propagates with the
connection still open — one acquired connection leaks. -/
theorem connection_release_policy (st : PgState) (loc : LocationBase)
    (obs : ObservationBase) :
    (create_location st loc false).1.openConns = st.openConns ∧
    (create_observation st obs false).1.openConns = st.openConns ∧
    (create_location st loc true).1.openConns = st.openConns + 1 ∧
    (create_observation st obs true).1.openConns = st.openConns + 1 := by
  refine ⟨?_, ?_, rfl, rfl⟩ <;> simp [create_location, create_observation]

/-- Counterexample for C2: with no connection open, a raising insert in
create_location returns control to the framework with one connection
still held, refuting release-on-every-exit-path. -/
theorem connection_leak_on_execute_failure_cx :
    (create_location pgSt1 ⟨"Perth", none⟩ true).1.openConns = 1 ∧
    pgSt1.openConns = 0 ∧
    (create_location pgSt1 ⟨"Perth", none⟩ true).2 = Except.error PgError.storage :=
  ⟨rfl, rfl, rfl⟩

/-- C5 (code bug): updating prediction 1 to reference observation 2 —
which exists, as does its location — does not succeed: the source
assigns into the local name data before data is bound
(weather_api.py:652), so the request fails with a 500 and nothing is
written. -/
theorem update_prediction_changed_reference_crashes :
    findOne dbW.weather_observations "observation_id" (vInt 2) = some obsDoc2 ∧
    findOne dbW.locations "location_id" (vInt 1) = some locDoc1 ∧
    resultStatus (update_mongo_prediction dbW 1 ⟨2, false⟩ ⟨6, 0⟩).2 = some 500 ∧
    (update_mongo_prediction dbW 1 ⟨2, false⟩ ⟨6, 0⟩).1 = dbW :=
  ⟨rfl, rfl, rfl, rfl⟩

/-- C1 corrected: creating a prediction whose observation_id does not
resolve fails with a 404 NotFound and writes no document, but only after
a prediction id has been allocated — the predictions counter is already
incremented when the NotFound is raised (the id is burned). -/
theorem create_prediction_notfound_after_allocation (db : MongoDB)
    (pred : MongoPredictionBase) (now : Timestamp)
    (h : findOne db.weather_observations "observation_id"
      (vInt pred.observation_id) = none) :
    resultStatus (create_mongo_prediction db pred now).2 = some 404 ∧
    (create_mongo_prediction db pred now).1.rain_predictions = db.rain_predictions ∧
    (create_mongo_prediction db pred now).1.weather_observations =
      db.weather_observations ∧
    (create_mongo_prediction db pred now).1.locations = db.locations ∧
    (create_mongo_prediction db pred now).1.nextOid = db.nextOid ∧
    (create_mongo_prediction db pred now).1.counters =
      counterSet db.counters "predictions" (counterValD db "predictions" + 1) := by
  simp only [create_mongo_prediction]
  rw [gnsv_weather, h]
  exact ⟨rfl, rfl, rfl, rfl, rfl, rfl⟩

/-- Witness for C1's corrected claim: on the populated sample store,
creating a prediction for absent observation 7 yields 404, writes
nothing, and bumps the predictions counter. -/
theorem create_prediction_notfound_after_allocation_witness :
    resultStatus (create_mongo_prediction dbW ⟨7, true, ⟨9, 0⟩⟩ ⟨10, 0⟩).2 = some 404 ∧
    (create_mongo_prediction dbW ⟨7, true, ⟨9, 0⟩⟩ ⟨10, 0⟩).1.rain_predictions =
      dbW.rain_predictions ∧
    (create_mongo_prediction dbW ⟨7, true, ⟨9, 0⟩⟩ ⟨10, 0⟩).1.weather_observations =
      dbW.weather_observations ∧
    (create_mongo_prediction dbW ⟨7, true, ⟨9, 0⟩⟩ ⟨10, 0⟩).1.locations =
      dbW.locations ∧
    (create_mongo_prediction dbW ⟨7, true, ⟨9, 0⟩⟩ ⟨10, 0⟩).1.nextOid = dbW.nextOid ∧
    (create_mongo_prediction dbW ⟨7, true, ⟨9, 0⟩⟩ ⟨10, 0⟩).1.counters =
      counterSet dbW.counters "predictions" (counterValD dbW "predictions" + 1) :=
  create_prediction_notfound_after_allocation dbW ⟨7, true, ⟨9, 0⟩⟩ ⟨10, 0⟩ rfl

/-- Counterexample for C1: on the populated sample store the create
fails 404, yet the predictions counter has moved from 1 to 2 — a
prediction id was allocated before the NotFound check, refuting
fails-before-any-allocation. -/
theorem create_prediction_allocates_before_check_cx :
    resultStatus (create_mongo_prediction dbW ⟨7, true, ⟨9, 0⟩⟩ ⟨10, 0⟩).2 = some 404 ∧
    counterValD dbW "predictions" = 1 ∧
    counterValD (create_mongo_prediction dbW ⟨7, true, ⟨9, 0⟩⟩ ⟨10, 0⟩).1
      "predictions" = 2 :=
  ⟨rfl, rfl, rfl⟩

/-- C6: creating a prediction whose referenced observation exists but
whose stored location_id resolves to no location (for example after that
location was deleted) fails with a 404 NotFound. -/
theorem create_prediction_orphan_observation_rejected (db : MongoDB)
    (pred : MongoPredictionBase) (now : Timestamp) (odoc : Document) (lv : BVal)
    (hobs : findOne db.weather_observations "observation_id"
      (vInt pred.observation_id) = some odoc)
    (hlid : lookupKey odoc "location_id" = some lv)
    (hloc : findOne db.locations "location_id" lv = none) :
    resultStatus (create_mongo_prediction db pred now).2 = some 404 := by
  simp only [create_mongo_prediction, gnsv_weather, gnsv_locations, hobs,
    hlid, hloc, resultStatus]

/-- Witness for C6: observation 1 exists but its location 1 has been
removed from the locations collection; the create is rejected with 404. -/
theorem create_prediction_orphan_observation_rejected_witness :
    resultStatus
      (create_mongo_prediction ⟨[], [obsDoc1], [], [], 0⟩ ⟨1, true, ⟨9, 0⟩⟩
        ⟨10, 0⟩).2 = some 404 :=
  create_prediction_orphan_observation_rejected ⟨[], [obsDoc1], [], [], 0⟩
    ⟨1, true, ⟨9, 0⟩⟩ ⟨10, 0⟩ obsDoc1 (vInt 1) rfl rfl rfl

/-- C9: deleting an existing document-store location succeeds, removes
exactly the first matching location document, touches no observation or
prediction document and no counter, and every subsequent observation
read returns exactly what it returned before the delete (dangling
location_id included). -/
theorem delete_location_no_cascade (db : MongoDB) (lid : Int)
    (ldoc : Document) (nv : BVal)
    (hloc : findOne db.locations "location_id" (vInt lid) = some ldoc)
    (hname : lookupKey ldoc "name" = some nv) :
    resultStatus (delete_mongo_location db lid).2 = none ∧
    (delete_mongo_location db lid).1.locations =
      db.locations.eraseP
        (fun d => decide (lookupKey d "location_id" = some (vInt lid))) ∧
    (delete_mongo_location db lid).1.weather_observations =
      db.weather_observations ∧
    (delete_mongo_location db lid).1.rain_predictions = db.rain_predictions ∧
    (delete_mongo_location db lid).1.counters = db.counters ∧
    (∀ x : Int, read_mongo_observation (delete_mongo_location db lid).1 x =
      read_mongo_observation db x) := by
  have hdel2 : (deleteOne db.locations "location_id" (vInt lid)).2 = 1 :=
    deleteOne_snd_of_found hloc
  have hred : delete_mongo_location db lid =
      ({ db with locations := (deleteOne db.locations "location_id" (vInt lid)).1 },
        Except.ok ⟨"Location " ++ nv.text ++ " (ID: " ++ toString lid ++
          ") deleted successfully", none⟩) := by
    simp only [delete_mongo_location, hloc, hname, hdel2]
    simp
  rw [hred]
  exact ⟨rfl, deleteOne_fst_eraseP db.locations "location_id" (vInt lid),
    rfl, rfl, rfl, fun x => read_mongo_observation_congr rfl x⟩

/-- Witness for C9: deleting location 1 from the populated sample store
succeeds and leaves both dependent collections untouched. -/
theorem delete_location_no_cascade_witness :
    resultStatus (delete_mongo_location dbW 1).2 = none ∧
    (delete_mongo_location dbW 1).1.locations =
      dbW.locations.eraseP
        (fun d => decide (lookupKey d "location_id" = some (vInt 1))) ∧
    (delete_mongo_location dbW 1).1.weather_observations =
      dbW.weather_observations ∧
    (delete_mongo_location dbW 1).1.rain_predictions = dbW.rain_predictions ∧
    (delete_mongo_location dbW 1).1.counters = dbW.counters ∧
    (∀ x : Int, read_mongo_observation (delete_mongo_location dbW 1).1 x =
      read_mongo_observation dbW x) :=
  delete_location_no_cascade dbW 1 locDoc1 (vStr "Sydney") rfl rfl

/-- C10: on a document-store observation update, the location reference
is checked against the locations collection whenever the submitted
location_id is nonzero — even when it equals the stored value — failing
404 with no state change when absent; when the submitted location_id is
0 the existence check is skipped entirely and the update of an existing
observation succeeds with no location lookup at all. -/
theorem update_observation_location_check_policy :
    (∀ (db : MongoDB) (oid : Int) (obs : ObservationBase),
      obs.location_id ≠ 0 →
      findOne db.locations "location_id" (vInt obs.location_id) = none →
      (update_mongo_observation db oid obs).1 = db ∧
      resultStatus (update_mongo_observation db oid obs).2 = some 404) ∧
    (∀ (db : MongoDB) (oid : Int) (obs : ObservationBase) (d : Document),
      obs.location_id = 0 →
      findOne db.weather_observations "observation_id" (vInt oid) = some d →
      resultStatus (update_mongo_observation db oid obs).2 = none) := by
  constructor
  · intro db oid obs hnz hloc
    unfold update_mongo_observation verify_location_exists
    rw [if_pos hnz, hloc]
    exact ⟨rfl, rfl⟩
  · intro db oid obs d hz hobs
    have hkeyslist : (promoteDate obs.dict).map Prod.fst =
        ["location_id", "date", "min_temp", "max_temp", "rainfall",
         "humidity_9am", "humidity_3pm", "pressure_9am", "pressure_3pm",
         "wind_speed_9am", "wind_speed_3pm", "wind_dir_9am", "wind_dir_3pm",
         "cloud_9am", "cloud_3pm", "temp_9am", "temp_3pm", "rain_today",
         "rain_tomorrow"] := rfl
    have hall : ∀ k ∈ (["location_id", "date", "min_temp", "max_temp",
        "rainfall", "humidity_9am", "humidity_3pm", "pressure_9am",
        "pressure_3pm", "wind_speed_9am", "wind_speed_3pm", "wind_dir_9am",
        "wind_dir_3pm", "cloud_9am", "cloud_3pm", "temp_9am", "temp_3pm",
        "rain_today", "rain_tomorrow"] : List String),
        k ≠ "observation_id" := by decide
    have hkeys : ∀ kv ∈ promoteDate obs.dict, kv.1 ≠ "observation_id" :=
      fun kv hkv => hall kv.1 (hkeyslist ▸ List.mem_map_of_mem Prod.fst hkv)
    have hpres : lookupKey (applyPatch d (promoteDate obs.dict))
        "observation_id" = some (vInt oid) := by
      rw [lookupKey_applyPatch_of_not_key hkeys]
      exact findOne_matches hobs
    have hupd := findOne_updateOne hobs hpres
    simp only [update_mongo_observation]
    rw [if_neg (fun hcon => hcon hz)]
    simp only [hupd.1, hupd.2, resultStatus]
    simp

/-- Witness for C10: a nonzero absent location is rejected with 404 and
no state change, while location_id 0 lets the update of observation 1
succeed on a store with no locations at all. -/
theorem update_observation_location_check_policy_witness :
    ((update_mongo_observation dbW 1 { location_id := 5, date := 12 }).1 = dbW ∧
     resultStatus
       (update_mongo_observation dbW 1 { location_id := 5, date := 12 }).2 =
       some 404) ∧
    resultStatus
      (update_mongo_observation ⟨[], [obsDoc1], [], [], 0⟩ 1
        { location_id := 0, date := 12 }).2 = none :=
  ⟨update_observation_location_check_policy.1 dbW 1
      { location_id := 5, date := 12 } (by decide) rfl,
   update_observation_location_check_policy.2 ⟨[], [obsDoc1], [], [], 0⟩ 1
      { location_id := 0, date := 12 } obsDoc1 rfl rfl⟩

/-- C7 corrected: predicted_at is server-assigned at document-store
creation (any client-supplied value is ignored) and refreshed to the
server clock on document-store updates, but the relational update leaves
every stored predicted_at unchanged — it is not refreshed there. -/
theorem predicted_at_assignment_policy
    (db : MongoDB) (pred : MongoPredictionBase) (now : Timestamp)
    (odoc ldoc : Document) (lv : BVal)
    (hobs : findOne db.weather_observations "observation_id"
      (vInt pred.observation_id) = some odoc)
    (hlid : lookupKey odoc "location_id" = some lv)
    (hloc : findOne db.locations "location_id" lv = some ldoc)
    (hfresh : findOne db.rain_predictions "_id" (vOid db.nextOid) = none)
    (db2 : MongoDB) (pid : Int) (pr2 : PredictionBase) (now2 : Timestamp)
    (edoc : Document)
    (hex : findOne db2.rain_predictions "prediction_id" (vInt pid) = some edoc)
    (hsame : lookupKey edoc "observation_id" = some (vInt pr2.observation_id))
    (st : PgState) (pid3 : Int) (pr3 : PredictionBase) (now3 : Timestamp) :
    responseField (create_mongo_prediction db pred now).2 "predicted_at" =
      some (vDate now) ∧
    responseField (update_mongo_prediction db2 pid pr2 now2).2 "predicted_at" =
      some (vDate now2) ∧
    ((update_prediction st pid3 pr3 now3).1.rain_predictions).map
      PgPrediction.predicted_at =
      st.rain_predictions.map PgPrediction.predicted_at := by
  refine ⟨?_, ?_, ?_⟩
  · simp only [create_mongo_prediction, gnsv_weather, gnsv_locations,
      gnsv_rain, gnsv_nextOid, hobs, hlid, hloc]
    have hdnone : lookupKey (setKey (setKey (setKey pred.dict "location_id" lv)
        "prediction_id" (vInt (get_next_sequence_value db "predictions").2))
        "predicted_at" (vDate now)) "_id" = none := rfl
    rw [findOne_singleton_insert hfresh hdnone]
    simp only [responseField, responseData]
    rw [lookupKey_stripId _ (show ("predicted_at" : String) ≠ "_id" by decide)]
    exact lookupKey_append_left _ (lookupKey_setKey_self _ _ _)
  · have hall2 : ∀ k ∈ (["observation_id", "will_it_rain", "predicted_at"] :
        List String), k ≠ "prediction_id" := by decide
    have hmap2 : (setKey pr2.dict "predicted_at" (vDate now2)).map Prod.fst =
        ["observation_id", "will_it_rain", "predicted_at"] := rfl
    have hkeys2 : ∀ kv ∈ setKey pr2.dict "predicted_at" (vDate now2),
        kv.1 ≠ "prediction_id" :=
      fun kv hkv => hall2 kv.1 (hmap2 ▸ List.mem_map_of_mem Prod.fst hkv)
    have hupd2 := findOne_updateOne hex (by
      rw [lookupKey_applyPatch_of_not_key hkeys2]
      exact findOne_matches hex)
    simp only [update_mongo_prediction, hex, hsame, hupd2.1, hupd2.2,
      responseField, responseData]
    simp
    rw [lookupKey_stripId _ (show ("predicted_at" : String) ≠ "_id" by decide)]
    have hpatch : setKey pr2.dict "predicted_at" (vDate now2) =
        [("observation_id", vInt pr2.observation_id),
         ("will_it_rain", vBool pr2.will_it_rain),
         ("predicted_at", vDate now2)] := rfl
    rw [hpatch]
    simp only [applyPatch]
    exact lookupKey_setKey_self _ _ _
  · simp only [update_prediction]
    exact pgUpdatePrediction_keeps_predicted_at st.rain_predictions pid3 pr3

/-- Witness for C7's corrected claim on the populated sample stores:
create ignores the client predicted_at of day 9 in favor of the server
clock day 10, the document-store no-op-reference update refreshes to day
11, and the relational update leaves the stored timestamps as they
were. -/
theorem predicted_at_assignment_policy_witness :
    responseField (create_mongo_prediction dbW ⟨1, true, ⟨9, 0⟩⟩ ⟨10, 0⟩).2
      "predicted_at" = some (vDate ⟨10, 0⟩) ∧
    responseField (update_mongo_prediction dbW 1 ⟨1, false⟩ ⟨11, 0⟩).2
      "predicted_at" = some (vDate ⟨11, 0⟩) ∧
    ((update_prediction pgSt1 1 ⟨1, false⟩ ⟨7, 0⟩).1.rain_predictions).map
      PgPrediction.predicted_at =
      pgSt1.rain_predictions.map PgPrediction.predicted_at :=
  predicted_at_assignment_policy dbW ⟨1, true, ⟨9, 0⟩⟩ ⟨10, 0⟩ obsDoc1 locDoc1
    (vInt 1) rfl rfl rfl rfl dbW 1 ⟨1, false⟩ ⟨11, 0⟩ predDoc1 rfl rfl
    pgSt1 1 ⟨1, false⟩ ⟨7, 0⟩

/-- Counterexample for C7: the relational update executed at server time
day 6 returns and stores predicted_at day 5 — the timestamp set at
creation — refuting refreshed-on-every-update. -/
theorem pg_update_keeps_predicted_at_cx :
    (update_prediction pgSt1 1 ⟨1, false⟩ ⟨6, 0⟩).2.toOption =
      some ⟨1, 1, false, ⟨5, 0⟩⟩ ∧
    (update_prediction pgSt1 1 ⟨1, false⟩ ⟨6, 0⟩).1.rain_predictions =
      [⟨1, 1, false, ⟨5, 0⟩⟩] ∧
    (⟨5, 0⟩ : Timestamp) ≠ ⟨6, 0⟩ :=
  ⟨rfl, rfl, by decide⟩

/-- C8: an observation created through the document-store mapper and then
read back by its allocated id yields exactly the payload the create
returned: the same logical field values as the input, the date-only date
promoted to the timestamp at midnight of that day, and no store-internal
object identifier in the result. -/
theorem observation_roundtrip (db : MongoDB) (obs : ObservationBase)
    (ldoc : Document)
    (hloc : findOne db.locations "location_id" (vInt obs.location_id) = some ldoc)
    (hfreshOid : findOne db.weather_observations "_id" (vOid db.nextOid) = none)
    (hfreshId : findOne db.weather_observations "observation_id"
      (vInt (counterValD db "observations" + 1)) = none) :
    ∃ d : Document,
      responseData (create_mongo_observation db obs).2 = some d ∧
      responseData (read_mongo_observation (create_mongo_observation db obs).1
        (counterValD db "observations" + 1)) = some d ∧
      lookupKey d "observation_id" =
        some (vInt (counterValD db "observations" + 1)) ∧
      lookupKey d "location_id" = some (vInt obs.location_id) ∧
      lookupKey d "date" = some (vDate ⟨obs.date, 0⟩) ∧
      lookupKey d "min_temp" = some (optFloat obs.min_temp) ∧
      lookupKey d "max_temp" = some (optFloat obs.max_temp) ∧
      lookupKey d "rainfall" = some (optFloat obs.rainfall) ∧
      lookupKey d "humidity_9am" = some (optFloat obs.humidity_9am) ∧
      lookupKey d "humidity_3pm" = some (optFloat obs.humidity_3pm) ∧
      lookupKey d "pressure_9am" = some (optFloat obs.pressure_9am) ∧
      lookupKey d "pressure_3pm" = some (optFloat obs.pressure_3pm) ∧
      lookupKey d "wind_speed_9am" = some (optFloat obs.wind_speed_9am) ∧
      lookupKey d "wind_speed_3pm" = some (optFloat obs.wind_speed_3pm) ∧
      lookupKey d "wind_dir_9am" = some (optStr obs.wind_dir_9am) ∧
      lookupKey d "wind_dir_3pm" = some (optStr obs.wind_dir_3pm) ∧
      lookupKey d "cloud_9am" = some (optFloat obs.cloud_9am) ∧
      lookupKey d "cloud_3pm" = some (optFloat obs.cloud_3pm) ∧
      lookupKey d "temp_9am" = some (optFloat obs.temp_9am) ∧
      lookupKey d "temp_3pm" = some (optFloat obs.temp_3pm) ∧
      lookupKey d "rain_today" = some (optBool obs.rain_today) ∧
      lookupKey d "rain_tomorrow" = some (optBool obs.rain_tomorrow) ∧
      lookupKey d "_id" = none := by
  have hver : verify_location_exists db obs.location_id = .ok true :=
    verify_location_exists_ok hloc
  simp only [create_mongo_observation, hver, gnsv_weather, gnsv_nextOid, gnsv_snd]
  have hd1id : lookupKey (setKey (promoteDate obs.dict) "observation_id"
      (vInt (counterValD db "observations" + 1))) "_id" = none := rfl
  rw [findOne_singleton_insert hfreshOid hd1id]
  have hlook : lookupKey (setKey (promoteDate obs.dict) "observation_id"
      (vInt (counterValD db "observations" + 1)) ++ [("_id", vOid db.nextOid)])
      "observation_id" = some (vInt (counterValD db "observations" + 1)) :=
    lookupKey_append_left _ (lookupKey_setKey_self _ _ _)
  have hfind2 : findOne (db.weather_observations ++
      [setKey (promoteDate obs.dict) "observation_id"
        (vInt (counterValD db "observations" + 1)) ++ [("_id", vOid db.nextOid)]])
      "observation_id" (vInt (counterValD db "observations" + 1)) =
      some (setKey (promoteDate obs.dict) "observation_id"
        (vInt (counterValD db "observations" + 1)) ++ [("_id", vOid db.nextOid)]) := by
    rw [findOne_append_none _ hfreshId]
    simp [findOne, hlook]
  refine ⟨_, rfl, ?_, rfl, rfl, rfl, rfl, rfl, rfl, rfl, rfl, rfl, rfl, rfl,
    rfl, rfl, rfl, rfl, rfl, rfl, rfl, rfl, rfl, rfl⟩
  have hsl : lookupKey (setKey (promoteDate obs.dict) "observation_id"
      (vInt (counterValD db "observations" + 1)) ++ [("_id", vOid db.nextOid)])
      "location_id" = some (vInt obs.location_id) := rfl
  have hsd : lookupKey (setKey (promoteDate obs.dict) "observation_id"
      (vInt (counterValD db "observations" + 1)) ++ [("_id", vOid db.nextOid)])
      "date" = some (vDate ⟨obs.date, 0⟩) := rfl
  simp only [read_mongo_observation, hfind2, hsl, hsd]
  rfl

/-- Witness for C8: a fully populated observation created on the sample
store reads back with identical logical fields, the date promoted to
midnight, and no internal identifier. -/
theorem observation_roundtrip_witness :
    ∃ d : Document,
      responseData (create_mongo_observation dbW obsFull).2 = some d ∧
      responseData (read_mongo_observation (create_mongo_observation dbW obsFull).1
        (counterValD dbW "observations" + 1)) = some d ∧
      lookupKey d "observation_id" =
        some (vInt (counterValD dbW "observations" + 1)) ∧
      lookupKey d "location_id" = some (vInt obsFull.location_id) ∧
      lookupKey d "date" = some (vDate ⟨obsFull.date, 0⟩) ∧
      lookupKey d "min_temp" = some (optFloat obsFull.min_temp) ∧
      lookupKey d "max_temp" = some (optFloat obsFull.max_temp) ∧
      lookupKey d "rainfall" = some (optFloat obsFull.rainfall) ∧
      lookupKey d "humidity_9am" = some (optFloat obsFull.humidity_9am) ∧
      lookupKey d "humidity_3pm" = some (optFloat obsFull.humidity_3pm) ∧
      lookupKey d "pressure_9am" = some (optFloat obsFull.pressure_9am) ∧
      lookupKey d "pressure_3pm" = some (optFloat obsFull.pressure_3pm) ∧
      lookupKey d "wind_speed_9am" = some (optFloat obsFull.wind_speed_9am) ∧
      lookupKey d "wind_speed_3pm" = some (optFloat obsFull.wind_speed_3pm) ∧
      lookupKey d "wind_dir_9am" = some (optStr obsFull.wind_dir_9am) ∧
      lookupKey d "wind_dir_3pm" = some (optStr obsFull.wind_dir_3pm) ∧
      lookupKey d "cloud_9am" = some (optFloat obsFull.cloud_9am) ∧
      lookupKey d "cloud_3pm" = some (optFloat obsFull.cloud_3pm) ∧
      lookupKey d "temp_9am" = some (optFloat obsFull.temp_9am) ∧
      lookupKey d "temp_3pm" = some (optFloat obsFull.temp_3pm) ∧
      lookupKey d "rain_today" = some (optBool obsFull.rain_today) ∧
      lookupKey d "rain_tomorrow" = some (optBool obsFull.rain_tomorrow) ∧
      lookupKey d "_id" = none :=
  observation_roundtrip dbW obsFull locDoc1 rfl rfl rfl

end WeatherApi
